import Mathlib

/-!
Verification of the streaming-ETL deployment topology
(`src/cdk/lib/streaming-etl.ts`).

The stack declares an artifact store (S3 bucket), an append log (Kinesis
stream), a managed stream-processing application (Kinesis Data Analytics,
Flink), a producer/replay EC2 instance whose bootstrap is a linear shell
script, readiness gates (CloudFormation wait conditions created by the
`BuildArtifacts` construct), and a CloudWatch dashboard of four widgets.

Every definition below is translated from the source constructor body; the
few pieces of the system that live outside the source tree (the readiness
gate implementation in `build-artifacts.ts`, the checkpoint-policy
validator, the provisioning-library defaults) are modelled from the spec
and marked as such in their doc comments.
-/

namespace StreamingEtl

/-- Deletion policy of a declared resource (`RemovalPolicy` in the source). -/
inductive RemovalPolicy
  | destroy
  | retain
deriving DecidableEq, Repr

/-- Modelled from the spec: the default deletion policy of the Artifact
Store denies destructive teardown (the store is retained unless the
deployment explicitly allows destruction). -/
def defaultBucketRemovalPolicy : RemovalPolicy := RemovalPolicy.retain

/-- A span of time, in seconds (`Duration` in the source). -/
structure Duration where
  seconds : Nat
deriving DecidableEq, Repr

/-- `Duration.days(n)`. -/
def Duration.days (n : Nat) : Duration := ⟨n * 86400⟩

/-- `Duration.minutes(n)`. -/
def Duration.minutes (n : Nat) : Duration := ⟨n * 60⟩

/-- One lifecycle rule of the bucket (source lines 31-33). -/
structure LifecycleRule where
  abortIncompleteMultipartUploadAfter : Duration
deriving DecidableEq, Repr

/-- A bucket metrics declaration (source lines 28-30). -/
structure BucketMetricsRule where
  id : String
deriving DecidableEq, Repr

/-- Public-access setting of the bucket. -/
inductive BlockPublicAccess
  | blockAll
deriving DecidableEq, Repr

/-- The Artifact Store configuration (source lines 24-34). -/
structure Bucket where
  versioned : Bool
  removalPolicy : RemovalPolicy
  blockPublicAccess : BlockPublicAccess
  metrics : List BucketMetricsRule
  lifecycleRules : List LifecycleRule
deriving DecidableEq, Repr

/-- The bucket declared at source lines 24-34: versioned, removal policy
DESTROY, public access blocked, whole-bucket metrics, and a lifecycle rule
aborting incomplete multipart uploads after 7 days. -/
def bucket : Bucket :=
  ⟨true, RemovalPolicy.destroy, BlockPublicAccess.blockAll,
    [⟨"EntireBucket"⟩], [⟨Duration.days 7⟩]⟩

/-- The Append Log configuration (source lines 50-52). -/
structure KinesisStream where
  shardCount : Nat
deriving DecidableEq, Repr

/-- The input stream declared at source lines 50-52. -/
def inputStream : KinesisStream := ⟨16⟩

/-- `monitoringConfiguration` (source lines 99-103). -/
structure MonitoringConfiguration where
  logLevel : String
  metricsLevel : String
  configurationType : String
deriving DecidableEq, Repr

/-- `parallelismConfiguration` (source lines 104-109). -/
structure ParallelismConfiguration where
  autoScalingEnabled : Bool
  parallelism : Nat
  parallelismPerKpu : Nat
  configurationType : String
deriving DecidableEq, Repr

/-- `checkpointConfiguration` (source lines 110-115). -/
structure CheckpointConfiguration where
  configurationType : String
  checkpointInterval : Nat
  minPauseBetweenCheckpoints : Nat
  checkpointingEnabled : Bool
deriving DecidableEq, Repr

/-- `flinkApplicationConfiguration` (source lines 98-116). -/
structure FlinkApplicationConfiguration where
  monitoringConfiguration : MonitoringConfiguration
  parallelismConfiguration : ParallelismConfiguration
  checkpointConfiguration : CheckpointConfiguration
deriving DecidableEq, Repr

/-- `applicationSnapshotConfiguration` (source lines 117-119). -/
structure ApplicationSnapshotConfiguration where
  snapshotsEnabled : Bool
deriving DecidableEq, Repr

/-- The Stream Processing Application resource (source lines 81-130). -/
structure KdaApplication where
  runtimeEnvironment : String
  flinkApplicationConfiguration : FlinkApplicationConfiguration
  applicationSnapshotConfiguration : ApplicationSnapshotConfiguration
deriving DecidableEq, Repr

/-- The application declared at source lines 81-130. -/
def kdaApp : KdaApplication :=
  ⟨"FLINK-1_8",
    ⟨⟨"INFO", "TASK", "CUSTOM"⟩,
      ⟨false, 2, 1, "CUSTOM"⟩,
      ⟨"CUSTOM", 60000, 60000, true⟩⟩,
    ⟨false⟩⟩

/-- Modelled from the spec: the checkpoint-policy validator is not part of
the source tree (validation happens in the provisioning engine); the spec
requires that a policy with checkpointing enabled is accepted exactly when
the minimum pause between checkpoints does not exceed the checkpoint
interval. -/
def validateCheckpointPolicy (c : CheckpointConfiguration) : Bool :=
  !c.checkpointingEnabled || decide (c.minPauseBetweenCheckpoints ≤ c.checkpointInterval)

/-- States of a Readiness Gate (spec section 3). -/
inductive GateState
  | waiting
  | signaledSuccess
  | signaledFailure
  | timedOut
deriving DecidableEq, Repr

/-- Whether a gate state is terminal: every non-WAITING state is. -/
def GateState.isTerminal : GateState → Bool
  | GateState.waiting => false
  | _ => true

/-- Error returned when signaling a gate that is already terminal. -/
inductive SignalError
  | alreadySignaled
deriving DecidableEq, Repr

/-- Modelled from the spec: the Readiness Gate implementation (the wait
conditions created by `BuildArtifacts` in `build-artifacts.ts`) is not part
of the source tree. A signal carrying a boolean outcome and a reason moves
a WAITING gate to the corresponding terminal state; a signal on a gate
already in a terminal state fails with AlreadySignaled and leaves the state
unchanged. Returns the call result and the new gate state. -/
def signal (g : GateState) (success : Bool) (_reason : String) :
    Except SignalError Unit × GateState :=
  if g = GateState.waiting then
    (Except.ok (),
      if success then GateState.signaledSuccess else GateState.signaledFailure)
  else
    (Except.error SignalError.alreadySignaled, g)

/-- The resources of the topology that take part in the gating claims. -/
inductive Res
  | bucket
  | inputStream
  | consumerArtifactGate
  | producerArtifactGate
  | kdaApplication
  | producerInstance
deriving DecidableEq, Repr

/-- The declared dependency edges (dependent, dependency) among the gated
resources: the application depends on the consumer-artifact wait condition
(source line 139, `kdaApp.addDependsOn`); the producer instance depends on
the application (implicit reference `kdaApp.ref` inside the user data of
the instance, source lines 191 and 206) and on the producer-artifact wait
condition (source line 213, `instance.node.addDependency`). -/
def dependsOn : List (Res × Res) :=
  [(Res.kdaApplication, Res.consumerArtifactGate),
   (Res.producerInstance, Res.kdaApplication),
   (Res.producerInstance, Res.producerArtifactGate)]

/-- The gate resources of the topology. -/
def gateResources : List Res :=
  [Res.consumerArtifactGate, Res.producerArtifactGate]

/-- One run of the provisioning engine over the topology: when each
resource begins activation, when it completes (reaches Ready), and the
terminal state each gate ended in. -/
structure Deployment where
  startTime : Res → Nat
  readyTime : Res → Nat
  gateState : Res → GateState

/-- Activation takes time forward: no resource is Ready before it starts. -/
def Deployment.wellFormed (d : Deployment) : Prop :=
  ∀ r : Res, d.startTime r ≤ d.readyTime r

/-- The engine honours every declared dependency edge: a dependent begins
activation only after its dependency has completed. -/
def Deployment.respectsDependencies (d : Deployment) : Prop :=
  ∀ a b : Res, (a, b) ∈ dependsOn → d.readyTime b < d.startTime a

/-- A successful deployment: every resource completes, dependencies are
honoured, and a wait-condition resource completes only by reaching
SIGNALED_SUCCESS (a failed or timed-out gate fails the deployment). -/
def Deployment.successful (d : Deployment) : Prop :=
  d.wellFormed ∧ d.respectsDependencies ∧
    ∀ g ∈ gateResources, d.gateState g = GateState.signaledSuccess

/-- The bootstrap commands of the producer instance (`userData`, source
lines 188-193 and 212). Parameters keep the salient arguments of each
shell command. -/
inductive UserDataCommand
  | yumInstall (packages : List String)
  | startApplication (applicationName restoreType : String)
  | copyArtifactFromS3 (user bucketName keyDir includePattern : String)
  | cfnSignal (stackName resourceId : String)
deriving DecidableEq, Repr

/-- Deploy-time token for the application name (`kdaApp.ref`). -/
def kdaApplicationRef : String := "KdaApplication"

/-- Deploy-time token for the bucket name (`bucket.bucketName`). -/
def bucketNameToken : String := "Bucket"

/-- Deploy-time token for the stack name (`Aws.STACK_NAME`). -/
def stackNameToken : String := "AWS::StackName"

/-- Deploy-time token for the stream name (`stream.streamName`). -/
def streamNameToken : String := "InputStream"

/-- Logical id of the producer instance resource. -/
def producerInstanceLogicalId : String := "ProducerInstance"

/-- The three commands added before the instance is declared (source lines
189-193): install packages, start the application skipping snapshot
restore, and copy the replay jar from the bucket as user ssm-user. -/
def initialUserData : List UserDataCommand :=
  [UserDataCommand.yumInstall ["tmux", "jq", "java-11-amazon-corretto-headless"],
   UserDataCommand.startApplication kdaApplicationRef "SKIP_RESTORE_FROM_SNAPSHOT",
   UserDataCommand.copyArtifactFromS3 "ssm-user" bucketNameToken "target/"
     "amazon-kinesis-replay-*.jar"]

/-- The full bootstrap script: the cfn-signal command is appended after the
instance declaration (source line 212) and reports the shell variable
holding the exit status of the immediately preceding command. -/
def userDataCommands : List UserDataCommand :=
  initialUserData ++ [UserDataCommand.cfnSignal stackNameToken producerInstanceLogicalId]

/-- The runtime outcomes of the bootstrap steps on one boot: the exit code
of each of the three substantive commands. A nonzero start exit covers in
particular the application being already started. -/
structure BootEnv where
  yumExit : Nat
  startApplicationExit : Nat
  copyExit : Nat
deriving DecidableEq, Repr

/-- The exit code of one command under the given outcomes. The cfn-signal
command itself exits 0. -/
def commandExit (env : BootEnv) : UserDataCommand → Nat
  | UserDataCommand.yumInstall _ => env.yumExit
  | UserDataCommand.startApplication _ _ => env.startApplicationExit
  | UserDataCommand.copyArtifactFromS3 _ _ _ _ => env.copyExit
  | UserDataCommand.cfnSignal _ _ => 0

/-- Observable events of one bootstrap run: a command ran with an exit
code, or the completion status was signaled upward. -/
inductive BootEvent
  | ran (cmd : UserDataCommand) (exitCode : Nat)
  | signaled (stackName resourceId : String) (status : Nat)
deriving DecidableEq, Repr

/-- Shell semantics of the rendered user-data script: a plain bash script
without errexit runs every command in sequence regardless of earlier
failures, and the cfn-signal command reports the exit status of the
immediately preceding command (the value of the special shell variable at
that point, threaded here as `lastExit`). -/
def execScript (env : BootEnv) : List UserDataCommand → Nat → List BootEvent
  | [], _ => []
  | UserDataCommand.cfnSignal st res :: rest, lastExit =>
      BootEvent.signaled st res lastExit :: execScript env rest 0
  | cmd :: rest, _ =>
      BootEvent.ran cmd (commandExit env cmd) :: execScript env rest (commandExit env cmd)

/-- The trace of one boot of the producer instance. -/
def bootTrace (env : BootEnv) : List BootEvent :=
  execScript env userDataCommands 0

/-- The statuses reported upward by the run, in order. -/
def signaledStatuses (events : List BootEvent) : List Nat :=
  events.filterMap fun e =>
    match e with
    | BootEvent.signaled _ _ s => some s
    | _ => none

/-- A time-series metric query (source lines 223-295). -/
structure Metric where
  metricNamespace : String
  metricName : String
  dimensions : List (String × String)
  period : Duration
  statistic : String
deriving DecidableEq, Repr

/-- `metric.with(\x7b statistic \x7d)`: the same query with another statistic. -/
def Metric.withStatistic (m : Metric) (s : String) : Metric :=
  ⟨m.metricNamespace, m.metricName, m.dimensions, m.period, s⟩

/-- Y-axis options of a graph widget. -/
structure YAxisProps where
  axisMin : Option Nat
  label : Option String
  showUnits : Option Bool
deriving DecidableEq, Repr

/-- A dashboard graph widget (source lines 298-359). -/
structure GraphWidget where
  left : List Metric
  right : List Metric
  width : Nat
  title : String
  leftYAxis : Option YAxisProps
  rightYAxis : Option YAxisProps
deriving DecidableEq, Repr

/-- IncomingRecords on the stream (source lines 223-231). -/
def incomingRecords (streamName : String) : Metric :=
  ⟨"AWS/Kinesis", "IncomingRecords", [("StreamName", streamName)],
    Duration.minutes 1, "sum"⟩

/-- IncomingBytes on the stream (source lines 233-241). -/
def incomingBytes (streamName : String) : Metric :=
  ⟨"AWS/Kinesis", "IncomingBytes", [("StreamName", streamName)],
    Duration.minutes 1, "sum"⟩

/-- GetRecords.Records on the stream (source lines 243-251). -/
def outgoingRecords (streamName : String) : Metric :=
  ⟨"AWS/Kinesis", "GetRecords.Records", [("StreamName", streamName)],
    Duration.minutes 1, "sum"⟩

/-- GetRecords.Bytes on the stream (source lines 253-261). -/
def outgoingBytes (streamName : String) : Metric :=
  ⟨"AWS/Kinesis", "GetRecords.Bytes", [("StreamName", streamName)],
    Duration.minutes 1, "sum"⟩

/-- millisBehindLatest of the application, max statistic (source lines
263-273); the Id dimension joins with underscores the parts of the stream
name split on dashes. -/
def millisBehindLatest (streamName appRef : String) : Metric :=
  ⟨"AWS/KinesisAnalytics", "millisBehindLatest",
    [("Id", String.intercalate "_" (streamName.splitOn "-")),
     ("Application", appRef), ("Flow", "Input")],
    Duration.minutes 1, "max"⟩

/-- BytesUploaded on the bucket (source lines 275-284). -/
def bytesUploaded (bucketName : String) : Metric :=
  ⟨"AWS/S3", "BytesUploaded",
    [("BucketName", bucketName), ("FilterId", "EntireBucket")],
    Duration.minutes 1, "sum"⟩

/-- PutRequests on the bucket (source lines 286-295). -/
def putRequests (bucketName : String) : Metric :=
  ⟨"AWS/S3", "PutRequests",
    [("BucketName", bucketName), ("FilterId", "EntireBucket")],
    Duration.minutes 1, "sum"⟩

/-- First widget added (source lines 298-311): inbound throughput. -/
def incomingWidget (streamName : String) : GraphWidget :=
  ⟨[incomingRecords streamName], [incomingBytes streamName], 24,
    "Kinesis data stream (incoming)",
    some ⟨some 0, none, none⟩, some ⟨some 0, none, none⟩⟩

/-- Second widget added (source lines 313-326): outbound throughput. -/
def outgoingWidget (streamName : String) : GraphWidget :=
  ⟨[outgoingRecords streamName], [outgoingBytes streamName], 24,
    "Kinesis data stream (outgoing)",
    some ⟨some 0, none, none⟩, some ⟨some 0, none, none⟩⟩

/-- Third widget added (source lines 328-344): consumer lag, plotting the
max and the average statistic of the same metric on the left axis. -/
def consumerLagWidget (streamName appRef : String) : GraphWidget :=
  ⟨[millisBehindLatest streamName appRef,
     (millisBehindLatest streamName appRef).withStatistic "avg"], [], 24,
    "Flink consumer lag",
    some ⟨some 0, some "milliseconds", some false⟩, none⟩

/-- Fourth widget added (source lines 346-359): storage-sink throughput. -/
def s3IncomingWidget (bucketName : String) : GraphWidget :=
  ⟨[putRequests bucketName], [bytesUploaded bucketName], 24,
    "Amazon S3 (incoming)",
    some ⟨some 0, none, none⟩, some ⟨some 0, none, none⟩⟩

/-- The dashboard, built by the four addWidgets calls in source order
(source lines 298-359). -/
def dashboardWidgets (streamName appRef bucketName : String) : List GraphWidget :=
  [incomingWidget streamName] ++ [outgoingWidget streamName] ++
    [consumerLagWidget streamName appRef] ++ [s3IncomingWidget bucketName]

/-- Which peers an ingress rule admits. -/
inductive Peer
  | anyIpv4
  | sameSecurityGroup
deriving DecidableEq, Repr

/-- Which traffic an ingress rule admits. -/
inductive NetPort
  | tcp (port : Nat)
  | allTraffic
deriving DecidableEq, Repr

/-- One ingress rule of a security group. -/
structure IngressRule where
  peer : Peer
  port : NetPort
deriving DecidableEq, Repr

/-- The ingress rules added to the security group of the producer instance
(source lines 156-157): SSH from anywhere, and all traffic from members of
the group itself. -/
def securityGroupIngress : List IngressRule :=
  [⟨Peer.anyIpv4, NetPort.tcp 22⟩, ⟨Peer.sameSecurityGroup, NetPort.allTraffic⟩]

/-- The per-deployment inputs of the stack constructor (`cdk.StackProps`):
stack-level metadata only. None of the resource configurations read these. -/
structure StackProps where
  stackName : Option String
  description : Option String
  envAccount : Option String
  envRegion : Option String
  terminationProtection : Option Bool
deriving DecidableEq, Repr

/-- The whole declared topology of one deployment. -/
structure StreamingEtlStack where
  templateDescription : String
  bucket : Bucket
  inputStream : KinesisStream
  kdaApp : KdaApplication
  securityGroupIngress : List IngressRule
  userDataCommands : List UserDataCommand
  dependencies : List (Res × Res)
  dashboardWidgets : List GraphWidget
deriving DecidableEq, Repr

/-- The stack constructor (source lines 19-363): the props argument only
feeds the stack-level metadata of the provisioning engine; every resource
configuration in the constructor body is a literal. -/
def streamingEtl (_props : StackProps) : StreamingEtlStack :=
  ⟨"Creates a sample streaming ETL pipeline based on Apache Flink and Amazon Kinesis Data Analytics that reads data from a Kinesis data stream and persists it to Amazon S3 (shausma-kda-streaming-etl)",
    bucket, inputStream, kdaApp, securityGroupIngress, userDataCommands,
    dependsOn, dashboardWidgets streamNameToken kdaApplicationRef bucketNameToken⟩

/-- A concrete successful deployment used to witness the ordering theorem:
both gates are signaled success and complete at time 1, the application
runs over times 2-3, the instance over times 4-5. -/
def witnessSchedule : Res → Nat × Nat
  | Res.consumerArtifactGate => (0, 1)
  | Res.producerArtifactGate => (0, 1)
  | Res.kdaApplication => (2, 3)
  | Res.producerInstance => (4, 5)
  | _ => (0, 0)

/-- The witnessing deployment built from `witnessSchedule`. -/
def witnessDeployment : Deployment :=
  ⟨fun r => (witnessSchedule r).1, fun r => (witnessSchedule r).2,
    fun _ => GateState.signaledSuccess⟩

/-- C1. Gated activation order: in every successful deployment, the
consumer-artifact gate is SIGNALED_SUCCESS and completes before the
application begins activation; the producer-artifact gate is
SIGNALED_SUCCESS and completes before the producer instance begins
activation; the application completes activation before the instance
begins; hence the application reaches Ready before the instance does. -/
theorem c1_gated_activation_order (d : Deployment) (h : d.successful) :
    d.gateState Res.consumerArtifactGate = GateState.signaledSuccess ∧
    d.readyTime Res.consumerArtifactGate < d.startTime Res.kdaApplication ∧
    d.gateState Res.producerArtifactGate = GateState.signaledSuccess ∧
    d.readyTime Res.producerArtifactGate < d.startTime Res.producerInstance ∧
    d.readyTime Res.kdaApplication < d.startTime Res.producerInstance ∧
    d.readyTime Res.kdaApplication < d.readyTime Res.producerInstance := by
  obtain ⟨hwf, hdep, hg⟩ := h
  have h1 := hdep Res.kdaApplication Res.consumerArtifactGate (by decide)
  have h2 := hdep Res.producerInstance Res.kdaApplication (by decide)
  have h3 := hdep Res.producerInstance Res.producerArtifactGate (by decide)
  have hc := hg Res.consumerArtifactGate (by decide)
  have hp := hg Res.producerArtifactGate (by decide)
  exact ⟨hc, h1, hp, h3, h2, lt_of_lt_of_le h2 (hwf Res.producerInstance)⟩

/-- Witness for C1 at the concrete deployment `witnessDeployment`. -/
theorem c1_gated_activation_order_witness :
    witnessDeployment.gateState Res.consumerArtifactGate = GateState.signaledSuccess ∧
    witnessDeployment.readyTime Res.consumerArtifactGate <
      witnessDeployment.startTime Res.kdaApplication ∧
    witnessDeployment.gateState Res.producerArtifactGate = GateState.signaledSuccess ∧
    witnessDeployment.readyTime Res.producerArtifactGate <
      witnessDeployment.startTime Res.producerInstance ∧
    witnessDeployment.readyTime Res.kdaApplication <
      witnessDeployment.startTime Res.producerInstance ∧
    witnessDeployment.readyTime Res.kdaApplication <
      witnessDeployment.readyTime Res.producerInstance :=
  c1_gated_activation_order witnessDeployment
    ⟨fun r => by cases r <;> decide, fun a b => by cases a <;> cases b <;> decide,
      fun g hm => rfl⟩

/-- C2. Signaling a gate twice: the first signal on a WAITING gate takes it
to the terminal state carrying the first outcome; the second signal call
returns AlreadySignaled and leaves the state unchanged, so the final
outcome equals the outcome carried by the first signal. -/
theorem c2_second_signal_rejected (b1 b2 : Bool) (r1 r2 : String) :
    (signal (signal GateState.waiting b1 r1).2 b2 r2).1 =
      Except.error SignalError.alreadySignaled ∧
    (signal (signal GateState.waiting b1 r1).2 b2 r2).2 =
      (signal GateState.waiting b1 r1).2 ∧
    ((signal GateState.waiting b1 r1).2).isTerminal = true ∧
    (signal GateState.waiting b1 r1).2 =
      (if b1 then GateState.signaledSuccess else GateState.signaledFailure) := by
  cases b1 <;> simp [signal, GateState.isTerminal]

/-- C3. Checkpoint policy validation: a configuration with checkpointing
enabled is rejected exactly when the minimum pause exceeds the interval. -/
theorem c3_checkpoint_policy_validation (c : CheckpointConfiguration)
    (h : c.checkpointingEnabled = true) :
    validateCheckpointPolicy c = true ↔
      c.minPauseBetweenCheckpoints ≤ c.checkpointInterval := by
  simp [validateCheckpointPolicy, h]

/-- Witness for C3: the pair interval 60000 with pause 90000 is rejected,
the pair interval 60000 with pause 60000 is accepted, and the checkpoint
configuration declared in the source is accepted. -/
theorem c3_checkpoint_policy_validation_witness :
    validateCheckpointPolicy ⟨"CUSTOM", 60000, 90000, true⟩ = false ∧
    validateCheckpointPolicy ⟨"CUSTOM", 60000, 60000, true⟩ = true ∧
    validateCheckpointPolicy
      kdaApp.flinkApplicationConfiguration.checkpointConfiguration = true :=
  ⟨by
    have h := c3_checkpoint_policy_validation ⟨"CUSTOM", 60000, 90000, true⟩ rfl
    revert h
    decide,
   (c3_checkpoint_policy_validation ⟨"CUSTOM", 60000, 60000, true⟩ rfl).mpr
     (by decide),
   (c3_checkpoint_policy_validation
       kdaApp.flinkApplicationConfiguration.checkpointConfiguration rfl).mpr
     (by decide)⟩

/-- C4. Dashboard composition: for any metric-source names, the dashboard
holds exactly 4 widgets in the fixed order inbound throughput, outbound
throughput, consumer lag, storage-sink throughput; each of the three
two-metric left/right widgets pairs one metric on each axis with an
explicit lower bound 0 on both axes; and the consumer-lag widget plots the
max statistic and the average statistic of the same millisBehindLatest
metric, on an axis with explicit lower bound 0. -/
theorem c4_dashboard_composition (s a b : String) :
    (dashboardWidgets s a b).length = 4 ∧
    (dashboardWidgets s a b).map GraphWidget.title =
      ["Kinesis data stream (incoming)", "Kinesis data stream (outgoing)",
       "Flink consumer lag", "Amazon S3 (incoming)"] ∧
    (∀ w ∈ [incomingWidget s, outgoingWidget s, s3IncomingWidget b],
      w.left.length = 1 ∧ w.right.length = 1 ∧
      w.leftYAxis = some ⟨some 0, none, none⟩ ∧
      w.rightYAxis = some ⟨some 0, none, none⟩) ∧
    (consumerLagWidget s a).left =
      [millisBehindLatest s a, (millisBehindLatest s a).withStatistic "avg"] ∧
    (millisBehindLatest s a).statistic = "max" ∧
    ((millisBehindLatest s a).withStatistic "avg").statistic = "avg" ∧
    ((millisBehindLatest s a).withStatistic "avg").metricName =
      (millisBehindLatest s a).metricName ∧
    (consumerLagWidget s a).leftYAxis =
      some ⟨some 0, some "milliseconds", some false⟩ := by
  refine ⟨rfl, rfl, ?_, rfl, rfl, rfl, rfl, rfl⟩
  intro w hw
  simp only [List.mem_cons, List.not_mem_nil, or_false] at hw
  rcases hw with h | h | h <;> subst h <;>
    exact ⟨rfl, rfl, rfl, rfl⟩

/-- C5 amended. Configuration values of the deployed topology: for every
choice of stack props, the stack uses shard count 16, checkpoint interval
60000 ms, minimum checkpoint pause 60000 ms, parallelism 2, monitoring
verbosity INFO, metrics granularity TASK and snapshots disabled. -/
theorem c5_configuration_values (p : StackProps) :
    (streamingEtl p).inputStream.shardCount = 16 ∧
    (streamingEtl p).kdaApp.flinkApplicationConfiguration.checkpointConfiguration.checkpointInterval = 60000 ∧
    (streamingEtl p).kdaApp.flinkApplicationConfiguration.checkpointConfiguration.minPauseBetweenCheckpoints = 60000 ∧
    (streamingEtl p).kdaApp.flinkApplicationConfiguration.parallelismConfiguration.parallelism = 2 ∧
    (streamingEtl p).kdaApp.flinkApplicationConfiguration.monitoringConfiguration.logLevel = "INFO" ∧
    (streamingEtl p).kdaApp.flinkApplicationConfiguration.monitoringConfiguration.metricsLevel = "TASK" ∧
    (streamingEtl p).kdaApp.applicationSnapshotConfiguration.snapshotsEnabled = false :=
  ⟨rfl, rfl, rfl, rfl, rfl, rfl, rfl⟩

/-- C5 counterexample. None of the documented options is overridable per
deployment: as a function of the stack props (the only per-deployment
input of the constructor), each option is the constant function of its
hardcoded literal, so no choice of deployment input yields a different
value. -/
theorem c5_not_overridable_counterexample :
    (fun p : StackProps => (streamingEtl p).inputStream.shardCount) =
      (fun _ => 16) ∧
    (fun p : StackProps =>
      (streamingEtl p).kdaApp.flinkApplicationConfiguration.checkpointConfiguration.checkpointInterval) =
      (fun _ => 60000) ∧
    (fun p : StackProps =>
      (streamingEtl p).kdaApp.flinkApplicationConfiguration.checkpointConfiguration.minPauseBetweenCheckpoints) =
      (fun _ => 60000) ∧
    (fun p : StackProps =>
      (streamingEtl p).kdaApp.flinkApplicationConfiguration.parallelismConfiguration.parallelism) =
      (fun _ => 2) ∧
    (fun p : StackProps =>
      (streamingEtl p).kdaApp.flinkApplicationConfiguration.monitoringConfiguration.logLevel) =
      (fun _ => "INFO") ∧
    (fun p : StackProps =>
      (streamingEtl p).kdaApp.flinkApplicationConfiguration.monitoringConfiguration.metricsLevel) =
      (fun _ => "TASK") ∧
    (fun p : StackProps =>
      (streamingEtl p).kdaApp.applicationSnapshotConfiguration.snapshotsEnabled) =
      (fun _ => false) :=
  ⟨rfl, rfl, rfl, rfl, rfl, rfl, rfl⟩

/-- C6. Bootstrap order: whatever the outcome of each step (in particular
when the start command fails because the application is already started),
one boot of the producer instance executes exactly the four steps install
packages, start the application, copy the artifact locally, signal the
completion status upward, in that order. -/
theorem c6_bootstrap_step_order (env : BootEnv) :
    bootTrace env =
      [BootEvent.ran
        (UserDataCommand.yumInstall ["tmux", "jq", "java-11-amazon-corretto-headless"])
        env.yumExit,
       BootEvent.ran
        (UserDataCommand.startApplication kdaApplicationRef "SKIP_RESTORE_FROM_SNAPSHOT")
        env.startApplicationExit,
       BootEvent.ran
        (UserDataCommand.copyArtifactFromS3 "ssm-user" bucketNameToken "target/"
          "amazon-kinesis-replay-*.jar")
        env.copyExit,
       BootEvent.signaled stackNameToken producerInstanceLogicalId env.copyExit] :=
  rfl

/-- C7. Failure isolation in the bootstrap: even when the start command
exits nonzero, the artifact-copy step still executes (with its own exit
code) in the boot trace. -/
theorem c7_copy_runs_despite_start_failure (env : BootEnv)
    (_h : env.startApplicationExit ≠ 0) :
    BootEvent.ran
      (UserDataCommand.copyArtifactFromS3 "ssm-user" bucketNameToken "target/"
        "amazon-kinesis-replay-*.jar")
      env.copyExit ∈ bootTrace env :=
  List.Mem.tail _ (List.Mem.tail _ (List.Mem.head _))

/-- Witness for C7 at the concrete boot where only the start command
fails. -/
theorem c7_copy_runs_despite_start_failure_witness :
    BootEvent.ran
      (UserDataCommand.copyArtifactFromS3 "ssm-user" bucketNameToken "target/"
        "amazon-kinesis-replay-*.jar")
      (BootEnv.mk 0 1 0).copyExit ∈ bootTrace (BootEnv.mk 0 1 0) :=
  c7_copy_runs_despite_start_failure (BootEnv.mk 0 1 0) (by decide)

/-- C9. The upward completion signal reports only the exit status of the
immediately preceding artifact-copy step: when the start command fails but
the copy succeeds, the single reported status is 0 (success), so a failed
start alone never makes the completion signal report failure. -/
theorem c9_signal_reports_copy_status_only (env : BootEnv)
    (_hstart : env.startApplicationExit ≠ 0) (hcopy : env.copyExit = 0) :
    signaledStatuses (bootTrace env) = [env.copyExit] ∧
    signaledStatuses (bootTrace env) = [0] := by
  have h : signaledStatuses (bootTrace env) = [env.copyExit] := rfl
  exact ⟨h, by rw [h, hcopy]⟩

/-- Witness for C9 at the concrete boot where only the start command
fails. -/
theorem c9_signal_reports_copy_status_only_witness :
    signaledStatuses (bootTrace (BootEnv.mk 0 1 0)) = [(BootEnv.mk 0 1 0).copyExit] ∧
    signaledStatuses (bootTrace (BootEnv.mk 0 1 0)) = [0] :=
  c9_signal_reports_copy_status_only (BootEnv.mk 0 1 0) (by decide) rfl

/-- C8. Artifact Store configuration: the bucket is versioned, its removal
policy explicitly allows destructive teardown and differs from the
default-deny policy, and its single lifecycle rule aborts incomplete
multipart uploads after 7 days (604800 seconds). -/
theorem c8_bucket_configuration :
    bucket.versioned = true ∧
    bucket.removalPolicy = RemovalPolicy.destroy ∧
    bucket.removalPolicy ≠ defaultBucketRemovalPolicy ∧
    bucket.lifecycleRules = [⟨Duration.days 7⟩] ∧
    Duration.days 7 = ⟨604800⟩ := by
  refine ⟨rfl, rfl, ?_, rfl, rfl⟩
  decide

/-- C10. Security-group ingress of the producer instance: for every
deployment, the group admits inbound TCP port 22 from any IPv4 address and
all traffic from members of the same security group. -/
theorem c10_security_group_ingress (p : StackProps) :
    (streamingEtl p).securityGroupIngress =
      [⟨Peer.anyIpv4, NetPort.tcp 22⟩,
       ⟨Peer.sameSecurityGroup, NetPort.allTraffic⟩] :=
  rfl

end StreamingEtl
